import Mathlib

/-!
Shallow embedding of the comfyui-claude node adapter layer.

The repository declares four plugin node classes (`DescribeImage`,
`CombineTexts`, `TransformText`, `ClassifyImage`) in `src/nodes/nodes.py`,
and a registration table `NODE_CLASS_MAPPINGS` in `src/__init__.py`.
Each node declares a typed input/output schema through the host library
`comfyui_types` and, on `execute`, assembles a prompt string and delegates
to one of two helpers imported from the repository module `.ai`
(`describe_image`, `run_prompt`); `models` from that module is the choice
list of model identifiers.  The `.ai` module and the image tensor type are
external collaborators here: helpers are passed as parameters of type
`... → Except E String` (a helper that raises is `Except.error`), the image
is an arbitrary type parameter, and `models` is an arbitrary list of
strings over which the schema definitions are parametric.
-/

namespace ComfyuiClaude

/-- The type of a declared node input, mirroring the `comfyui_types`
constructors used in the source: `ImageInput`, `StringInput`,
`ChoiceInput(choices=...)`. -/
inductive InputType where
  | image : InputType
  | string : InputType
  | choice : List String → InputType
deriving DecidableEq, Repr

/-- One declared node input: its attribute name in the class body and the
keyword arguments given to the `comfyui_types` constructor.  Inputs are
required and single-line with no default unless the source says otherwise
(`required=False`, `multiline=True`, `default=...`). -/
structure InputDecl where
  name : String
  ty : InputType
  required : Bool
  multiline : Bool
  default : Option String
deriving DecidableEq, Repr

/-- The type of a declared node output; the source only ever uses
`StringOutput`. -/
inductive OutputType where
  | string : OutputType
deriving DecidableEq, Repr

/-- One declared node output. -/
structure OutputDecl where
  name : String
  ty : OutputType
deriving DecidableEq, Repr

/-- `DESCRIBE_IMAGE_PROMPT` constant of `src/nodes/nodes.py`. -/
def DESCRIBE_IMAGE_PROMPT : String := "Describe this image in detail."

/-- `COMBINE_TEXTS_PROMPT` constant of `src/nodes/nodes.py` (the Python
backslash line continuation inside the literal joins the two lines with
no newline). -/
def COMBINE_TEXTS_PROMPT : String :=
  "Combine the following two texts into one coherent prompt without redundancies."

/-- The four node classes exported by the package. -/
inductive NodeClass where
  | DescribeImage : NodeClass
  | CombineTexts : NodeClass
  | TransformText : NodeClass
  | ClassifyImage : NodeClass
deriving DecidableEq, Repr

/-- `NODE_CLASS_MAPPINGS` of `src/__init__.py`: display name to node
class, in source order. -/
def NODE_CLASS_MAPPINGS : List (String × NodeClass) :=
  [("Describe Image", NodeClass.DescribeImage),
   ("Combine Texts", NodeClass.CombineTexts),
   ("Transform Text", NodeClass.TransformText),
   ("Classify Image", NodeClass.ClassifyImage)]

/-- Input schema of `DescribeImage`, in source declaration order,
parametric over the `models` choice list imported from `.ai`. -/
def DescribeImage.inputs (models : List String) : List InputDecl :=
  [⟨"image", InputType.image, true, false, none⟩,
   ⟨"model", InputType.choice models, true, false, none⟩,
   ⟨"api_key", InputType.string, true, false, none⟩,
   ⟨"system_prompt", InputType.string, false, true, none⟩,
   ⟨"prompt", InputType.string, false, true, some DESCRIBE_IMAGE_PROMPT⟩]

/-- Output schema of `DescribeImage`. -/
def DescribeImage.outputs : List OutputDecl :=
  [⟨"description", OutputType.string⟩]

/-- `DescribeImage.execute`: sends the image and prompt to the helper and
returns the one-element result tuple.  The prompt-assembly step is the
identity: the `prompt` argument is passed to `describe_image` unchanged. -/
def DescribeImage.execute {Img E : Type}
    (describe_image : Img → String → String → String → String → Except E String)
    (image : Img) (model : String) (api_key : String)
    (system_prompt : String) (prompt : String) : Except E (List String) :=
  (describe_image image prompt system_prompt model api_key).map (fun s => [s])

/-- The (identity) prompt-assembly step of `DescribeImage`: the source
builds no string, the `prompt` input is the prompt sent. -/
def DescribeImage.full_prompt (prompt : String) : String := prompt

/-- Input schema of `CombineTexts`, in source declaration order. -/
def CombineTexts.inputs (models : List String) : List InputDecl :=
  [⟨"text_1", InputType.string, true, true, none⟩,
   ⟨"text_1_prefix", InputType.string, true, false, some "1"⟩,
   ⟨"text_2", InputType.string, true, true, none⟩,
   ⟨"text_2_prefix", InputType.string, true, false, some "2"⟩,
   ⟨"model", InputType.choice models, true, false, none⟩,
   ⟨"api_key", InputType.string, true, false, none⟩,
   ⟨"system_prompt", InputType.string, false, true, none⟩,
   ⟨"prompt", InputType.string, false, true, some DESCRIBE_IMAGE_PROMPT⟩]

/-- Output schema of `CombineTexts`. -/
def CombineTexts.outputs : List OutputDecl :=
  [⟨"combined_texts", OutputType.string⟩]

/-- The `full_prompt` local of `CombineTexts.execute`:
the f-string interpolation of prompt, prefixes and texts. -/
def CombineTexts.full_prompt (prompt : String) ( text_1_prefix : String)
    (text_1 : String) ( text_2_prefix : String) (text_2 : String) : String :=
  prompt ++ "\n" ++ text_1_prefix ++ " " ++ text_1 ++ "\n" ++
    text_2_prefix ++ " " ++ text_2

/-- `CombineTexts.execute`: assembles `full_prompt` and sends it to
`run_prompt`, returning the one-element result tuple. -/
def CombineTexts.execute {E : Type}
    (run_prompt : String → String → String → String → Except E String)
    (text_1 : String) ( text_1_prefix : String)
    (text_2 : String) ( text_2_prefix : String)
    (model : String) (api_key : String)
    (system_prompt : String) (prompt : String) : Except E (List String) :=
  (run_prompt (CombineTexts.full_prompt prompt text_1_prefix text_1 text_2_prefix text_2)
      system_prompt model api_key).map (fun s => [s])

/-- Input schema of `TransformText`, in source declaration order. -/
def TransformText.inputs (models : List String) : List InputDecl :=
  [⟨"text", InputType.string, true, true, none⟩,
   ⟨"model", InputType.choice models, true, false, none⟩,
   ⟨"api_key", InputType.string, true, false, none⟩,
   ⟨"system_prompt", InputType.string, false, true, none⟩,
   ⟨"prompt", InputType.string, false, true, some DESCRIBE_IMAGE_PROMPT⟩]

/-- Output schema of `TransformText`. -/
def TransformText.outputs : List OutputDecl :=
  [⟨"transformed_text", OutputType.string⟩]

/-- The `full_prompt` local of `TransformText.execute`. -/
def TransformText.full_prompt (prompt : String) (text : String) : String :=
  prompt ++ "\nText: " ++ text ++ "\n"

/-- `TransformText.execute`: assembles `full_prompt` and sends it to
`run_prompt`, returning the one-element result tuple. -/
def TransformText.execute {E : Type}
    (run_prompt : String → String → String → String → Except E String)
    (text : String) (model : String) (api_key : String)
    (system_prompt : String) (prompt : String) : Except E (List String) :=
  (run_prompt (TransformText.full_prompt prompt text)
      system_prompt model api_key).map (fun s => [s])

/-- The default of `ClassifyImage.classification_prompt`, transcribed from
the source literal. -/
def CLASSIFY_IMAGE_DEFAULT_PROMPT : String :=
  "You are a visual classification model. I will provide you with a full-body fashion image containing one or more garments. Your task is to analyze the entire image and classify each distinct visible garment using **only** the following predefined list of classes: dress, jacket, jumpsuit, sweatshirt, coat, cardigan, skort, bikini, leggings, underwear, swimsuit, bodysuit, vest, poncho, saree, kurta, sweater, sleepwear, tank-top, shirt, pants, shorts, thshirt, skirt, topwear, jeans, tshirt, blazer, bra ### Instructions: - Identify the **most prominent garments** visible in the image - Select the **best-fitting label** from the list above for each garment - **MAXIMUM TWO CLASSES ONLY** - return at most 2 garment classifications - If there is only one visible garment, return just the **single class name** - If there are multiple garments, return **only the two most prominent ones** in a **comma-separated format** (e.g., `shirt, pants`) - **Only** use the class names from the list above. Do **not** create new categories or output any additional text - Your output must be **clean and machine-readable**, as it will be passed directly to another model (Moondream) for bounding box extraction ### Output format: - One garment → `tshirt` - Two garments → `tshirt, jeans` - **NEVER return more than two classes** Again, **do not include explanations, descriptions, confidence scores, or formatting**—just the class name(s) as a single plain string with maximum two classes."

/-- Input schema of `ClassifyImage`, in source declaration order. -/
def ClassifyImage.inputs (models : List String) : List InputDecl :=
  [⟨"image", InputType.image, true, false, none⟩,
   ⟨"classification_prompt", InputType.string, true, true,
     some CLASSIFY_IMAGE_DEFAULT_PROMPT⟩,
   ⟨"model", InputType.choice models, true, false,
     some "claude-3-7-sonnet-20250219"⟩,
   ⟨"api_key", InputType.string, true, false, none⟩,
   ⟨"system_prompt", InputType.string, false, true, none⟩]

/-- Output schema of `ClassifyImage`. -/
def ClassifyImage.outputs : List OutputDecl :=
  [⟨"classification", OutputType.string⟩]

/-- `ClassifyImage.execute`: sends the image and classification prompt to
`describe_image` and returns the one-element result tuple. -/
def ClassifyImage.execute {Img E : Type}
    (describe_image : Img → String → String → String → String → Except E String)
    (image : Img) (classification_prompt : String)
    (model : String) (api_key : String)
    (system_prompt : String) : Except E (List String) :=
  (describe_image image classification_prompt system_prompt model api_key).map
    (fun s => [s])

/-- The (identity) prompt-assembly step of `ClassifyImage`: the
`classification_prompt` input is the prompt sent. -/
def ClassifyImage.full_prompt (classification_prompt : String) : String :=
  classification_prompt

/-- The module-level state of the program: the registration table and the
four declared schemas.  The Python `execute` bodies contain no assignment
to any attribute or module variable, so their state-threaded embeddings
below return this state unchanged. -/
structure ProgramState where
  node_class_mappings : List (String × NodeClass)
  describe_image_inputs : List InputDecl
  combine_texts_inputs : List InputDecl
  transform_text_inputs : List InputDecl
  classify_image_inputs : List InputDecl
deriving DecidableEq, Repr

/-- The program state after loading the package: `NODE_CLASS_MAPPINGS` and
the four schemas as declared. -/
def initState (models : List String) : ProgramState :=
  ⟨NODE_CLASS_MAPPINGS, DescribeImage.inputs models, CombineTexts.inputs models,
   TransformText.inputs models, ClassifyImage.inputs models⟩

/-- State-threaded `DescribeImage.execute`: the body reads and writes no
persistent state, so the state passes through. -/
def DescribeImage.executeSt {Img E : Type}
    (describe_image : Img → String → String → String → String → Except E String)
    (image : Img) (model : String) (api_key : String)
    (system_prompt : String) (prompt : String) (s : ProgramState) :
    Except E (List String) × ProgramState :=
  (DescribeImage.execute describe_image image model api_key system_prompt prompt, s)

/-- State-threaded `CombineTexts.execute`. -/
def CombineTexts.executeSt {E : Type}
    (run_prompt : String → String → String → String → Except E String)
    (text_1 : String) ( text_1_prefix : String)
    (text_2 : String) ( text_2_prefix : String)
    (model : String) (api_key : String)
    (system_prompt : String) (prompt : String) (s : ProgramState) :
    Except E (List String) × ProgramState :=
  (CombineTexts.execute run_prompt text_1 text_1_prefix text_2 text_2_prefix
      model api_key system_prompt prompt, s)

/-- State-threaded `TransformText.execute`. -/
def TransformText.executeSt {E : Type}
    (run_prompt : String → String → String → String → Except E String)
    (text : String) (model : String) (api_key : String)
    (system_prompt : String) (prompt : String) (s : ProgramState) :
    Except E (List String) × ProgramState :=
  (TransformText.execute run_prompt text model api_key system_prompt prompt, s)

/-- State-threaded `ClassifyImage.execute`. -/
def ClassifyImage.executeSt {Img E : Type}
    (describe_image : Img → String → String → String → String → Except E String)
    (image : Img) (classification_prompt : String)
    (model : String) (api_key : String)
    (system_prompt : String) (s : ProgramState) :
    Except E (List String) × ProgramState :=
  (ClassifyImage.execute describe_image image classification_prompt
      model api_key system_prompt, s)

/-- Claim C1: the prompt assembled by `CombineTexts.execute` is exactly
prompt + newline + prefix1 + space + text1 + newline + prefix2 + space +
text2; on the example inputs it is prompt + "\nX a\nY b"; and `execute`
passes exactly this string as the first argument to `run_prompt`. -/
theorem combine_texts_prompt_assembly :
    (∀ p x t1 y t2 : String,
        CombineTexts.full_prompt p x t1 y t2 =
          p ++ "\n" ++ x ++ " " ++ t1 ++ "\n" ++ y ++ " " ++ t2) ∧
    (∀ p : String, CombineTexts.full_prompt p "X" "a" "Y" "b" = p ++ "\nX a\nY b") ∧
    (∀ {E : Type} (run_prompt : String → String → String → String → Except E String)
        (t1 x t2 y model api_key system_prompt p : String),
        CombineTexts.execute run_prompt t1 x t2 y model api_key system_prompt p =
          (run_prompt (CombineTexts.full_prompt p x t1 y t2)
              system_prompt model api_key).map (fun s => [s])) := by
  refine ⟨fun p x t1 y t2 => rfl, fun p => ?_, ?_⟩
  · simp [CombineTexts.full_prompt, String.append_assoc]
  · intro E rp t1 x t2 y m k sp p
    rfl

/-- Claim C2: for each of the four nodes, if the external helper returns
an error, `execute` returns that exact error (no catching, wrapping or
replacing, and no other result). -/
theorem execute_propagates_errors :
    (∀ {Img E : Type}
        (di : Img → String → String → String → String → Except E String)
        (e : E) (image : Img) (m k sp p : String),
        di image p sp m k = Except.error e →
        DescribeImage.execute di image m k sp p = Except.error e) ∧
    (∀ {E : Type} (rp : String → String → String → String → Except E String)
        (e : E) (t1 x t2 y m k sp p : String),
        rp (CombineTexts.full_prompt p x t1 y t2) sp m k = Except.error e →
        CombineTexts.execute rp t1 x t2 y m k sp p = Except.error e) ∧
    (∀ {E : Type} (rp : String → String → String → String → Except E String)
        (e : E) (t m k sp p : String),
        rp (TransformText.full_prompt p t) sp m k = Except.error e →
        TransformText.execute rp t m k sp p = Except.error e) ∧
    (∀ {Img E : Type}
        (di : Img → String → String → String → String → Except E String)
        (e : E) (image : Img) (cp m k sp : String),
        di image cp sp m k = Except.error e →
        ClassifyImage.execute di image cp m k sp = Except.error e) := by
  refine ⟨?_, ?_, ?_, ?_⟩
  · intro Img E di e image m k sp p h
    simp [DescribeImage.execute, h, Except.map]
  · intro E rp e t1 x t2 y m k sp p h
    simp [CombineTexts.execute, h, Except.map]
  · intro E rp e t m k sp p h
    simp [TransformText.execute, h, Except.map]
  · intro Img E di e image cp m k sp h
    simp [ClassifyImage.execute, h, Except.map]

/-- Witness for the error-propagation theorem at a concrete failing
helper, for each of the four nodes. -/
theorem execute_propagates_errors_witness :
    DescribeImage.execute
        (fun (_ : Unit) (_ _ _ _ : String) => (Except.error "boom" : Except String String))
        () "m" "k" "s" "p" = Except.error "boom" ∧
    CombineTexts.execute
        (fun (_ _ _ _ : String) => (Except.error "boom" : Except String String))
        "a" "X" "b" "Y" "m" "k" "s" "p" = Except.error "boom" ∧
    TransformText.execute
        (fun (_ _ _ _ : String) => (Except.error "boom" : Except String String))
        "t" "m" "k" "s" "p" = Except.error "boom" ∧
    ClassifyImage.execute
        (fun (_ : Unit) (_ _ _ _ : String) => (Except.error "boom" : Except String String))
        () "c" "m" "k" "s" = Except.error "boom" :=
  ⟨execute_propagates_errors.1 _ "boom" () "m" "k" "s" "p" rfl,
   execute_propagates_errors.2.1 _ "boom" "a" "X" "b" "Y" "m" "k" "s" "p" rfl,
   execute_propagates_errors.2.2.1 _ "boom" "t" "m" "k" "s" "p" rfl,
   execute_propagates_errors.2.2.2 _ "boom" () "c" "m" "k" "s" rfl⟩

/-- Claim C3: every node declares exactly one output, of string type, and
whenever the helper returns a string s, `execute` returns exactly the
one-element tuple holding s unchanged. -/
theorem single_string_output_passthrough :
    DescribeImage.outputs = [⟨"description", OutputType.string⟩] ∧
    CombineTexts.outputs = [⟨"combined_texts", OutputType.string⟩] ∧
    TransformText.outputs = [⟨"transformed_text", OutputType.string⟩] ∧
    ClassifyImage.outputs = [⟨"classification", OutputType.string⟩] ∧
    (∀ {Img E : Type}
        (di : Img → String → String → String → String → Except E String)
        (r : String) (image : Img) (m k sp p : String),
        di image p sp m k = Except.ok r →
        DescribeImage.execute di image m k sp p = Except.ok [r]) ∧
    (∀ {E : Type} (rp : String → String → String → String → Except E String)
        (r : String) (t1 x t2 y m k sp p : String),
        rp (CombineTexts.full_prompt p x t1 y t2) sp m k = Except.ok r →
        CombineTexts.execute rp t1 x t2 y m k sp p = Except.ok [r]) ∧
    (∀ {E : Type} (rp : String → String → String → String → Except E String)
        (r : String) (t m k sp p : String),
        rp (TransformText.full_prompt p t) sp m k = Except.ok r →
        TransformText.execute rp t m k sp p = Except.ok [r]) ∧
    (∀ {Img E : Type}
        (di : Img → String → String → String → String → Except E String)
        (r : String) (image : Img) (cp m k sp : String),
        di image cp sp m k = Except.ok r →
        ClassifyImage.execute di image cp m k sp = Except.ok [r]) := by
  refine ⟨rfl, rfl, rfl, rfl, ?_, ?_, ?_, ?_⟩
  · intro Img E di r image m k sp p h
    simp [DescribeImage.execute, h, Except.map]
  · intro E rp r t1 x t2 y m k sp p h
    simp [CombineTexts.execute, h, Except.map]
  · intro E rp r t m k sp p h
    simp [TransformText.execute, h, Except.map]
  · intro Img E di r image cp m k sp h
    simp [ClassifyImage.execute, h, Except.map]

/-- Witness for the pass-through theorem at a concrete succeeding helper,
for each of the four nodes. -/
theorem single_string_output_passthrough_witness :
    DescribeImage.execute
        (fun (_ : Unit) (_ _ _ _ : String) => (Except.ok "res" : Except String String))
        () "m" "k" "s" "p" = Except.ok ["res"] ∧
    CombineTexts.execute
        (fun (_ _ _ _ : String) => (Except.ok "res" : Except String String))
        "a" "X" "b" "Y" "m" "k" "s" "p" = Except.ok ["res"] ∧
    TransformText.execute
        (fun (_ _ _ _ : String) => (Except.ok "res" : Except String String))
        "t" "m" "k" "s" "p" = Except.ok ["res"] ∧
    ClassifyImage.execute
        (fun (_ : Unit) (_ _ _ _ : String) => (Except.ok "res" : Except String String))
        () "c" "m" "k" "s" = Except.ok ["res"] :=
  ⟨single_string_output_passthrough.2.2.2.2.1 _ "res" () "m" "k" "s" "p" rfl,
   single_string_output_passthrough.2.2.2.2.2.1 _ "res" "a" "X" "b" "Y" "m" "k" "s" "p" rfl,
   single_string_output_passthrough.2.2.2.2.2.2.1 _ "res" "t" "m" "k" "s" "p" rfl,
   single_string_output_passthrough.2.2.2.2.2.2.2 _ "res" () "c" "m" "k" "s" rfl⟩

/-- Claim C4: `NODE_CLASS_MAPPINGS` has exactly four entries, mapping the
four display names to the four node classes. -/
theorem node_class_mappings_exact :
    NODE_CLASS_MAPPINGS.length = 4 ∧
    NODE_CLASS_MAPPINGS =
      [("Describe Image", NodeClass.DescribeImage),
       ("Combine Texts", NodeClass.CombineTexts),
       ("Transform Text", NodeClass.TransformText),
       ("Classify Image", NodeClass.ClassifyImage)] ∧
    NODE_CLASS_MAPPINGS.lookup "Describe Image" = some NodeClass.DescribeImage ∧
    NODE_CLASS_MAPPINGS.lookup "Combine Texts" = some NodeClass.CombineTexts ∧
    NODE_CLASS_MAPPINGS.lookup "Transform Text" = some NodeClass.TransformText ∧
    NODE_CLASS_MAPPINGS.lookup "Classify Image" = some NodeClass.ClassifyImage := by
  refine ⟨rfl, rfl, ?_, ?_, ?_, ?_⟩ <;> rfl

/-- Claim C5: for each node, the inputs with required=False are exactly
system_prompt and (where present) prompt, everything else is required,
and the declared defaults are exactly those of the source, input by
input. -/
theorem input_schema_flags (models : List String) :
    ((DescribeImage.inputs models).filter (fun d => !d.required)).map InputDecl.name =
      ["system_prompt", "prompt"] ∧
    ((DescribeImage.inputs models).filter InputDecl.required).map InputDecl.name =
      ["image", "model", "api_key"] ∧
    (DescribeImage.inputs models).map (fun d => (d.name, d.default)) =
      [("image", none), ("model", none), ("api_key", none),
       ("system_prompt", none), ("prompt", some DESCRIBE_IMAGE_PROMPT)] ∧
    ((CombineTexts.inputs models).filter (fun d => !d.required)).map InputDecl.name =
      ["system_prompt", "prompt"] ∧
    ((CombineTexts.inputs models).filter InputDecl.required).map InputDecl.name =
      ["text_1", "text_1_prefix", "text_2", "text_2_prefix", "model", "api_key"] ∧
    (CombineTexts.inputs models).map (fun d => (d.name, d.default)) =
      [("text_1", none), ("text_1_prefix", some "1"), ("text_2", none),
       ("text_2_prefix", some "2"), ("model", none), ("api_key", none),
       ("system_prompt", none), ("prompt", some DESCRIBE_IMAGE_PROMPT)] ∧
    ((TransformText.inputs models).filter (fun d => !d.required)).map InputDecl.name =
      ["system_prompt", "prompt"] ∧
    ((TransformText.inputs models).filter InputDecl.required).map InputDecl.name =
      ["text", "model", "api_key"] ∧
    (TransformText.inputs models).map (fun d => (d.name, d.default)) =
      [("text", none), ("model", none), ("api_key", none),
       ("system_prompt", none), ("prompt", some DESCRIBE_IMAGE_PROMPT)] ∧
    ((ClassifyImage.inputs models).filter (fun d => !d.required)).map InputDecl.name =
      ["system_prompt"] ∧
    ((ClassifyImage.inputs models).filter InputDecl.required).map InputDecl.name =
      ["image", "classification_prompt", "model", "api_key"] ∧
    (ClassifyImage.inputs models).map (fun d => (d.name, d.default)) =
      [("image", none), ("classification_prompt", some CLASSIFY_IMAGE_DEFAULT_PROMPT),
       ("model", some "claude-3-7-sonnet-20250219"), ("api_key", none),
       ("system_prompt", none)] := by
  refine ⟨rfl, rfl, rfl, rfl, rfl, rfl, rfl, rfl, rfl, rfl, rfl, rfl⟩

/-- Claim C6: for each node, the prompt-assembly step is a pure function
of the execute arguments: equal inputs give equal assembled prompts. -/
theorem prompt_assembly_deterministic :
    (∀ p q x w t1 u1 y v t2 u2 : String,
        p = q → x = w → t1 = u1 → y = v → t2 = u2 →
        CombineTexts.full_prompt p x t1 y t2 = CombineTexts.full_prompt q w u1 v u2) ∧
    (∀ p q t u : String, p = q → t = u →
        TransformText.full_prompt p t = TransformText.full_prompt q u) ∧
    (∀ p q : String, p = q →
        DescribeImage.full_prompt p = DescribeImage.full_prompt q) ∧
    (∀ c d : String, c = d →
        ClassifyImage.full_prompt c = ClassifyImage.full_prompt d) := by
  refine ⟨?_, ?_, ?_, ?_⟩
  · intro p q x w t1 u1 y v t2 u2 h1 h2 h3 h4 h5
    rw [h1, h2, h3, h4, h5]
  · intro p q t u h1 h2
    rw [h1, h2]
  · intro p q h
    rw [h]
  · intro c d h
    rw [h]

/-- Witness for the determinism theorem at concrete equal inputs, for
each of the four assembly steps. -/
theorem prompt_assembly_deterministic_witness :
    CombineTexts.full_prompt "p" "X" "a" "Y" "b" =
      CombineTexts.full_prompt "p" "X" "a" "Y" "b" ∧
    TransformText.full_prompt "p" "t" = TransformText.full_prompt "p" "t" ∧
    DescribeImage.full_prompt "p" = DescribeImage.full_prompt "p" ∧
    ClassifyImage.full_prompt "c" = ClassifyImage.full_prompt "c" :=
  ⟨prompt_assembly_deterministic.1 "p" "p" "X" "X" "a" "a" "Y" "Y" "b" "b"
      rfl rfl rfl rfl rfl,
   prompt_assembly_deterministic.2.1 "p" "p" "t" "t" rfl rfl,
   prompt_assembly_deterministic.2.2.1 "p" "p" rfl,
   prompt_assembly_deterministic.2.2.2 "c" "c" rfl⟩

/-- Claim C7: each node calls its helper with arguments in the declared
signature order — `describe_image image prompt system_prompt model api_key`
for the two image nodes with the (classification) prompt passed through
unchanged, and `run_prompt full_prompt system_prompt model api_key` for
the two text nodes with the assembled prompt first — and each node's
model input is a choice over the `models` list. -/
theorem helper_call_argument_order :
    (∀ {Img E : Type}
        (di : Img → String → String → String → String → Except E String)
        (image : Img) (m k sp p : String),
        DescribeImage.execute di image m k sp p =
          (di image p sp m k).map (fun s => [s])) ∧
    (∀ {Img E : Type}
        (di : Img → String → String → String → String → Except E String)
        (image : Img) (cp m k sp : String),
        ClassifyImage.execute di image cp m k sp =
          (di image cp sp m k).map (fun s => [s])) ∧
    (∀ {E : Type} (rp : String → String → String → String → Except E String)
        (t1 x t2 y m k sp p : String),
        CombineTexts.execute rp t1 x t2 y m k sp p =
          (rp (CombineTexts.full_prompt p x t1 y t2) sp m k).map (fun s => [s])) ∧
    (∀ {E : Type} (rp : String → String → String → String → Except E String)
        (t m k sp p : String),
        TransformText.execute rp t m k sp p =
          (rp (TransformText.full_prompt p t) sp m k).map (fun s => [s])) ∧
    (∀ models : List String,
        (DescribeImage.inputs models).find? (fun d => d.name == "model") =
          some ⟨"model", InputType.choice models, true, false, none⟩ ∧
        (CombineTexts.inputs models).find? (fun d => d.name == "model") =
          some ⟨"model", InputType.choice models, true, false, none⟩ ∧
        (TransformText.inputs models).find? (fun d => d.name == "model") =
          some ⟨"model", InputType.choice models, true, false, none⟩ ∧
        (ClassifyImage.inputs models).find? (fun d => d.name == "model") =
          some ⟨"model", InputType.choice models, true, false,
            some "claude-3-7-sonnet-20250219"⟩) := by
  refine ⟨?_, ?_, ?_, ?_, ?_⟩
  · intro Img E di image m k sp p
    rfl
  · intro Img E di image cp m k sp
    rfl
  · intro E rp t1 x t2 y m k sp p
    rfl
  · intro E rp t m k sp p
    rfl
  · intro models
    refine ⟨rfl, rfl, rfl, rfl⟩

/-- Claim C8: no execute mutates state — each state-threaded execute
returns the program state (registration table and schemas) unchanged. -/
theorem execute_preserves_state :
    (∀ {Img E : Type}
        (di : Img → String → String → String → String → Except E String)
        (image : Img) (m k sp p : String) (s : ProgramState),
        (DescribeImage.executeSt di image m k sp p s).2 = s) ∧
    (∀ {E : Type} (rp : String → String → String → String → Except E String)
        (t1 x t2 y m k sp p : String) (s : ProgramState),
        (CombineTexts.executeSt rp t1 x t2 y m k sp p s).2 = s) ∧
    (∀ {E : Type} (rp : String → String → String → String → Except E String)
        (t m k sp p : String) (s : ProgramState),
        (TransformText.executeSt rp t m k sp p s).2 = s) ∧
    (∀ {Img E : Type}
        (di : Img → String → String → String → String → Except E String)
        (image : Img) (cp m k sp : String) (s : ProgramState),
        (ClassifyImage.executeSt di image cp m k sp s).2 = s) ∧
    (∀ (models : List String) {E : Type}
        (rp : String → String → String → String → Except E String)
        (t1 x t2 y m k sp p : String),
        (CombineTexts.executeSt rp t1 x t2 y m k sp p (initState models)).2.node_class_mappings =
          NODE_CLASS_MAPPINGS) := by
  refine ⟨?_, ?_, ?_, ?_, ?_⟩
  · intro Img E di image m k sp p s
    rfl
  · intro E rp t1 x t2 y m k sp p s
    rfl
  · intro E rp t m k sp p s
    rfl
  · intro Img E di image cp m k sp s
    rfl
  · intro models E rp t1 x t2 y m k sp p
    rfl

/-- Claim C9: the default of the optional prompt input of `CombineTexts`
is `DESCRIBE_IMAGE_PROMPT` (the describe-image prompt), the two prompt
constants have exactly the source values and differ, and no input of any
node uses `COMBINE_TEXTS_PROMPT` as a default. -/
theorem combine_texts_default_unused_constant (models : List String) :
    ((CombineTexts.inputs models).find? (fun d => d.name == "prompt")).map
        InputDecl.default = some (some DESCRIBE_IMAGE_PROMPT) ∧
    DESCRIBE_IMAGE_PROMPT = "Describe this image in detail." ∧
    COMBINE_TEXTS_PROMPT =
      "Combine the following two texts into one coherent prompt without redundancies." ∧
    COMBINE_TEXTS_PROMPT ≠ DESCRIBE_IMAGE_PROMPT ∧
    ((DescribeImage.inputs models ++ CombineTexts.inputs models ++
        TransformText.inputs models ++ ClassifyImage.inputs models).all
      (fun d => d.default != some COMBINE_TEXTS_PROMPT)) = true := by
  refine ⟨rfl, rfl, rfl, ?_, rfl⟩
  decide

/-- Witness for the default-and-unused-constant theorem: its only binder
is the `models` list, instantiated at a concrete list. -/
theorem combine_texts_default_unused_constant_witness :
    ((CombineTexts.inputs ["claude-3-5-sonnet-latest"]).find?
        (fun d => d.name == "prompt")).map InputDecl.default =
      some (some DESCRIBE_IMAGE_PROMPT) :=
  (combine_texts_default_unused_constant ["claude-3-5-sonnet-latest"]).1

/-- Claim C10: the prompt assembled by `TransformText.execute` is exactly
prompt + "\nText: " + text + "\n", always ending in a newline, while the
`CombineTexts` assembly appends nothing after the second text. -/
theorem transform_text_trailing_newline :
    (∀ p t : String, TransformText.full_prompt p t = p ++ "\nText: " ++ t ++ "\n") ∧
    (∀ p t : String, (TransformText.full_prompt p t).data.getLast? = some '\n') ∧
    (∀ p x t1 y t2 : String,
        CombineTexts.full_prompt p x t1 y t2 =
          (p ++ "\n" ++ x ++ " " ++ t1 ++ "\n" ++ y ++ " ") ++ t2) ∧
    (CombineTexts.full_prompt "p" "X" "a" "Y" "b").data.getLast? = some 'b' := by
  refine ⟨fun p t => rfl, ?_, fun p x t1 y t2 => rfl, by decide⟩
  intro p t
  simp [TransformText.full_prompt, String.data_append]
  rw [← List.cons_append, List.getLast?_concat]

end ComfyuiClaude
